import Mathlib

/-!
Verification development for the WildLab review bot
(`utils/wb_api.py`, `handlers/reviews.py`).

The embedding models Python JSON values with the inductive `Json`,
Python truthiness / `str()` / `int()` / `.lower()` / `.strip()` with
explicit helper functions, and each source function as a Lean function
over those values.  Functions that can raise in Python return `Option`
(`none` = an exception escaped to the nearest `except` handler).
The standard library's `json.loads` / `json.dumps` are external
collaborators and are passed in as the `PyJsonLib` parameter.
-/

set_option autoImplicit false

namespace WildLab

/-- A Python/JSON value: `None`, `bool`, `int`, `str`, `list`, `dict`.
(Float payloads are out of scope; the remote API uses ints and strings.) -/
inductive Json where
  | null
  | bool (b : Bool)
  | num (n : Int)
  | str (s : String)
  | arr (l : List Json)
  | obj (kvs : List (String × Json))

/-- Python truthiness `bool(x)` for a JSON value. -/
def truthy : Json → Bool
  | .null => false
  | .bool b => b
  | .num n => n != 0
  | .str s => s != ""
  | .arr l => !l.isEmpty
  | .obj kvs => !kvs.isEmpty

/-- `d.get(k, default)` on a Python dict (association list). -/
def dget (kvs : List (String × Json)) (k : String) (d : Json) : Json :=
  match List.lookup k kvs with
  | some v => v
  | none => d

/-- `k in d` on a Python dict. -/
def dhas (kvs : List (String × Json)) (k : String) : Bool :=
  (List.lookup k kvs).isSome

/-- One character of Python `str.lower()`, covering the ASCII and Cyrillic
letters this bot's strings use (other characters are left unchanged). -/
def pyLowerChar (c : Char) : Char :=
  if 'A' ≤ c ∧ c ≤ 'Z' then Char.ofNat (c.toNat + 32)
  else if 'А' ≤ c ∧ c ≤ 'Я' then Char.ofNat (c.toNat + 32)
  else if c = 'Ё' then 'ё'
  else c

/-- Python `s.lower()`. -/
def pyLower (s : String) : String := ⟨s.data.map pyLowerChar⟩

/-- The whitespace stripped by Python `str.strip()` (and by `int()`):
the characters of Python's Unicode whitespace table. -/
def isPyWS (c : Char) : Bool :=
  c == ' ' || c == '\t' || c == '\n' || c == '\r' || c == '\x0b' || c == '\x0c'
    || c == '\x1c' || c == '\x1d' || c == '\x1e' || c == '\x1f' || c == '\x85'
    || c == '\xa0' || c == '\u1680'
    || c == '\u2000' || c == '\u2001' || c == '\u2002' || c == '\u2003'
    || c == '\u2004' || c == '\u2005' || c == '\u2006' || c == '\u2007'
    || c == '\u2008' || c == '\u2009' || c == '\u200a'
    || c == '\u2028' || c == '\u2029' || c == '\u202f' || c == '\u205f'
    || c == '\u3000'

/-- Python `s.strip()` on a character list. -/
def pyStripList (l : List Char) : List Char :=
  ((l.dropWhile isPyWS).reverse.dropWhile isPyWS).reverse

/-- Python `s.strip()`. -/
def pyStrip (s : String) : String := ⟨pyStripList s.data⟩

mutual

/-- Python `repr(x)` for a JSON value (used by `str()` on lists/dicts). -/
def pyRepr : Json → String
  | .null => "None"
  | .bool b => if b then "True" else "False"
  | .num n => toString n
  | .str s => "'" ++ s ++ "'"
  | .arr l => "[" ++ pyReprList l ++ "]"
  | .obj kvs => "\x7b" ++ pyReprEntries kvs ++ "\x7d"

/-- Comma-separated `repr`s of list elements. -/
def pyReprList : List Json → String
  | [] => ""
  | [x] => pyRepr x
  | x :: xs => pyRepr x ++ ", " ++ pyReprList xs

/-- Comma-separated `repr`s of dict entries. -/
def pyReprEntries : List (String × Json) → String
  | [] => ""
  | [(k, v)] => "'" ++ k ++ "': " ++ pyRepr v
  | (k, v) :: xs => "'" ++ k ++ "': " ++ pyRepr v ++ ", " ++ pyReprEntries xs

end

/-- Python `str(x)` for a JSON value. -/
def pyStr : Json → String
  | .null => "None"
  | .bool b => if b then "True" else "False"
  | .num n => toString n
  | .str s => s
  | .arr l => pyRepr (.arr l)
  | .obj kvs => pyRepr (.obj kvs)

/-- A valid Python integer-literal digit run: non-empty decimal digits
with single underscores allowed strictly between digits (`int("1_0")`
is 10; `"_1"`, `"1_"` and `"1__0"` raise). -/
def pyDigitRun : List Char → Bool
  | [] => false
  | [c] => c.isDigit
  | c :: d :: rest =>
    c.isDigit && (if d == '_' then pyDigitRun rest else pyDigitRun (d :: rest))

/-- Python `int(s)` on a string: optional sign and a decimal digit run
(underscore separators allowed) after stripping whitespace; `none`
models a raised `ValueError`.  (Non-ASCII decimal digits are not
modelled: like floats, they do not occur in this API's payloads.) -/
def pyIntOfStr (s : String) : Option Int :=
  match pyStripList s.data with
  | [] => none
  | c :: rest =>
    let neg := c == '-'
    let digits := if c == '-' || c == '+' then rest else c :: rest
    if pyDigitRun digits then
      let v : Int := (digits.filter fun ch => ch != '_').foldl
        (fun acc ch => acc * 10 + ((ch.toNat : Int) - 48)) 0
      some (if neg then -v else v)
    else none

/-- Python `int(x)` on a JSON value; `none` models a raised
`TypeError`/`ValueError`. -/
def pyInt : Json → Option Int
  | .num n => some n
  | .bool b => some (if b then 1 else 0)
  | .str s => pyIntOfStr s
  | _ => none

/-- Python `x == k` for an int literal `k` (type-strict except bool). -/
def pyEqInt (j : Json) (k : Int) : Bool :=
  match j with
  | .num n => n == k
  | .bool b => (if b then (1 : Int) else 0) == k
  | _ => false

/-- Whether `needle` occurs as a substring (Python `needle in s`). -/
def strContains (s needle : String) : Bool :=
  s.data.tails.any fun t => needle.data.isPrefixOf t

/-- Whether a JSON value is the string `s` (for Python `s in list`). -/
def isStrEq (s : String) (j : Json) : Bool :=
  match j with
  | .str t => t == s
  | _ => false

/-- The `json.loads` / `json.dumps` standard-library collaborators,
passed in rather than re-implemented. -/
structure PyJsonLib where
  loads : String → Option Json
  dumps : List Json → String

/-! ## `WildberriesAPI._extract_photo_links` (wb_api.py lines 152-200) -/

/-- The per-record loop of `_extract_photo_links` for a list whose first
element is a dict: append `photo["fullSize"]` if the key is present, else
`photo["miniSize"]` if present, else skip.  `none` models a `TypeError`
raised by `"fullSize" in photo` or `photo["fullSize"]` on a non-dict
element (caught by the method's `except`, which returns `[]`). -/
def photoDictLoop : List Json → Option (List Json)
  | [] => some []
  | x :: xs =>
    match x with
    | .obj kvs =>
      match photoDictLoop xs with
      | none => none
      | some rest =>
        if dhas kvs "fullSize" then some (dget kvs "fullSize" .null :: rest)
        else if dhas kvs "miniSize" then some (dget kvs "miniSize" .null :: rest)
        else some rest
    | .str s =>
      if strContains s "fullSize" then none
      else if strContains s "miniSize" then none
      else photoDictLoop xs
    | .arr elems =>
      if elems.any (isStrEq "fullSize") then none
      else if elems.any (isStrEq "miniSize") then none
      else photoDictLoop xs
    | _ => none

/-- Handling of a list-shaped `photoLinks` value: dispatch on the first
element (dict record list / flat string list / anything else).  The
JSON-string branch of `_extract_photo_links` re-enters the function on
the decoded list, which lands exactly here. -/
def photoHandleList (l : List Json) : List Json :=
  match l with
  | [] => []
  | .obj _ :: _ =>
    match photoDictLoop l with
    | some r => r
    | none => []
  | .str _ :: _ => l
  | _ => []

/-- `_extract_photo_links(review)`: tolerant extraction of photo URLs from
the raw review's `photoLinks` field.  A non-dict `review` makes
`review.get` raise, which the method's `except` turns into `[]`. -/
def extract_photo_links (lib : PyJsonLib) (review : Json) : List Json :=
  match review with
  | .obj kvs =>
    let photo_links := dget kvs "photoLinks" (.arr [])
    if !truthy photo_links then []
    else
      match photo_links with
      | .arr l => photoHandleList l
      | .str s =>
        match lib.loads s with
        | some (.arr l) => photoHandleList l
        | _ => []
      | _ => []
  | _ => []

/-! ## `normalize_review_fields` (wb_api.py lines 410-502) -/

/-- The normalized review dict produced by `normalize_review_fields`.
Both the main path and the `except` fallback populate exactly these 13
keys.  `source_api_id`, `stars`, `photo_url`, `photo_urls`, `product_id`
carry Lean types because the source builds them with `str()` / `int()` /
explicit bool / `json.dumps`; the remaining fields hold whatever JSON
value the raw payload supplied, so they stay `Json`. -/
structure NormalizedReview where
  source_api_id : String
  stars : Int
  comment : Json
  pros : Json
  cons : Json
  photo_url : Bool
  photo_urls : String
  is_answered : Json
  response : Json
  product_name : Json
  product_id : String
  supplier_article : Json
  subject_name : Json

/-- Python `x if x is not None else ""` used for `pros`/`cons`. -/
def nullToEmpty (j : Json) : Json :=
  match j with
  | .null => .str ""
  | v => v

/-- Python `x if x is not None else False` used for `isAnswered`. -/
def nullToFalse (j : Json) : Json :=
  match j with
  | .null => .bool false
  | v => v

/-- The `except` fallback of `normalize_review_fields` for a dict input
(reached when `int(review.get("productValuation", 0))` raises): the
minimal safe-default record, with `id` and `text` re-read through
`str()`.  The conditional models `... if review else ""` (an empty dict
is falsy). -/
def normalizeExceptRecord (kvs : List (String × Json)) : NormalizedReview :=
  { source_api_id := if kvs.isEmpty then "" else pyStr (dget kvs "id" (.str ""))
    stars := 0
    comment := if kvs.isEmpty then .str "" else .str (pyStr (dget kvs "text" (.str "")))
    pros := .str ""
    cons := .str ""
    photo_url := false
    photo_urls := "[]"
    is_answered := .bool false
    response := .str ""
    product_name := .str ""
    product_id := ""
    supplier_article := .str ""
    subject_name := .str "" }

/-- The all-defaults record returned for a falsy non-dict input (the
`except` path with `review` falsy). -/
def normalizeDefaultRecord : NormalizedReview :=
  { source_api_id := ""
    stars := 0
    comment := .str ""
    pros := .str ""
    cons := .str ""
    photo_url := false
    photo_urls := "[]"
    is_answered := .bool false
    response := .str ""
    product_name := .str ""
    product_id := ""
    supplier_article := .str ""
    subject_name := .str "" }

/-- `normalize_review_fields(review)`.  `none` models an exception
escaping the function: on a truthy non-dict input the main path raises
`AttributeError` at `review.get` and the `except` handler evaluates
`str(review.get("id", ""))` (because `review` is truthy) which raises
again and propagates.  For a dict input the only raising operation is
the `int()` coercion of `productValuation`, which routes to the
`except` fallback record. -/
def normalize_review_fields (lib : PyJsonLib) (review : Json) :
    Option NormalizedReview :=
  match review with
  | .obj kvs =>
    match pyInt (dget kvs "productValuation" (.num 0)) with
    | none => some (normalizeExceptRecord kvs)
    | some stars =>
      let photo_links := extract_photo_links lib (.obj kvs)
      some
        { source_api_id := pyStr (dget kvs "id" (.str ""))
          stars := stars
          comment := dget kvs "text" (.str "")
          pros := nullToEmpty (dget kvs "pros" (.str ""))
          cons := nullToEmpty (dget kvs "cons" (.str ""))
          photo_url := !photo_links.isEmpty
          photo_urls := if photo_links.isEmpty then "[]" else lib.dumps photo_links
          is_answered := nullToFalse (dget kvs "isAnswered" (.bool false))
          response :=
            match dget kvs "answer" (.obj []) with
            | .obj akvs => dget akvs "text" (.str "")
            | _ => .str ""
          product_name :=
            match dget kvs "productDetails" (.obj []) with
            | .obj pd => dget pd "productName" (.str "")
            | _ => .str ""
          product_id :=
            match dget kvs "productDetails" (.obj []) with
            | .obj pd => pyStr (dget pd "nmId" (.str ""))
            | _ => ""
          supplier_article :=
            match dget kvs "productDetails" (.obj []) with
            | .obj pd => dget pd "supplierArticle" (.str "")
            | _ => .str ""
          subject_name := dget kvs "subjectName" (.str "") }
  | j => if truthy j then none else some normalizeDefaultRecord

/-! ## Data model (`models.py`) -/

/-- A row of the `user_settings` table.  A missing API key / greeting /
farewell (SQL `NULL`) behaves exactly like `""` under Python truthiness,
so both are modelled as `""`. -/
structure UserSettings where
  user_id : Int
  wb_api_key : String
  notifications_enabled : Bool
  auto_reply_enabled : Bool
  auto_reply_five_stars : Bool
  greeting : String
  farewell : String

/-- A row of the `reviews` table.  `source_api_id` is always built with
`str()` before insert, so it is a `String`; the content columns hold
whatever the ingestion wrote into them, so they stay `Json`. -/
structure Review where
  source_api_id : String
  user_id : Int
  stars : Json
  comment : Json
  pros : Json
  cons : Json
  photo_url : Json
  photo_urls : Json
  response : Json
  is_answered : Json
  product_name : Json
  product_id : Json
  supplier_article : Json
  subject_name : Json

/-- The row built from a normalized review in `check_new_reviews`
(`Review(source_api_id=..., user_id=..., stars=..., ...)`). -/
def mkRow (uid : Int) (nd : NormalizedReview) : Review :=
  { source_api_id := nd.source_api_id
    user_id := uid
    stars := .num nd.stars
    comment := nd.comment
    pros := nd.pros
    cons := nd.cons
    photo_url := .bool nd.photo_url
    photo_urls := .str nd.photo_urls
    response := nd.response
    is_answered := nd.is_answered
    product_name := nd.product_name
    product_id := .str nd.product_id
    supplier_article := nd.supplier_article
    subject_name := nd.subject_name }

/-! ## Ingestion (`check_new_reviews`, handlers/reviews.py lines 150-275) -/

/-- The duplicate check
`session.query(Review).filter_by(source_api_id=..., user_id=...).first()`:
is a row with this (source id, account id) pair already stored?
(SQLAlchemy autoflushes pending inserts, so in-batch inserts are seen.) -/
def reviewExists (store : List Review) (sid : String) (uid : Int) : Bool :=
  store.any fun r => r.source_api_id == sid && r.user_id == uid

/-- The `has_content = any([...])` test of `check_new_reviews`.  All four
list elements are evaluated before `any` runs; `.strip()` / `.lower()`
on a non-string raise (`none`, caught by the per-review `except`).
Inside `pros.strip() and pros.lower() != "не указаны"` the `.lower()`
call is short-circuited away when the stripped string is empty. -/
def hasContent (nd : NormalizedReview) : Option Bool :=
  match nd.comment, nd.pros, nd.cons with
  | .str c, .str p, .str co =>
    some ((pyStrip c != "")
      || (pyStrip p != "" && pyLower p != "не указаны")
      || (pyStrip co != "" && pyLower co != "не указаны")
      || nd.photo_url)
  | _, _, _ => none

/-- Processing of one raw review inside `check_new_reviews`: normalize,
skip if the (source id, account id) pair is already stored, otherwise
insert when the content filter passes.  Any exception (normalize
raising, or `has_content` on non-string fields) is caught by the
per-review `except` and the review is skipped. -/
def reviewStep (lib : PyJsonLib) (uid : Int) (acc : List Review × Nat)
    (raw : Json) : List Review × Nat :=
  match normalize_review_fields lib raw with
  | none => acc
  | some nd =>
    if reviewExists acc.1 nd.source_api_id uid then acc
    else
      match hasContent nd with
      | some true => (acc.1 ++ [mkRow uid nd], acc.2 + 1)
      | _ => acc

/-- The per-account ingestion loop of `check_new_reviews`: fold
`reviewStep` over the fetched raw reviews, returning the updated store
and `new_reviews_count`. -/
def ingestReviews (lib : PyJsonLib) (uid : Int) (raws : List Json)
    (store : List Review) : List Review × Nat :=
  raws.foldl (reviewStep lib uid) (store, 0)

/-! ## Auto-reply (`process_auto_replies`, handlers/reviews.py lines 277-340) -/

/-- The composed auto-reply text: fixed acknowledgement body, with the
account's greeting prefixed and farewell suffixed (single spaces) when
they are truthy. -/
def auto_reply_text (u : UserSettings) : String :=
  let base := "Спасибо за вашу высокую оценку! Мы очень рады, что вам понравился наш товар. Будем и дальше стараться радовать вас качеством нашей продукции."
  let withGreeting := if u.greeting != "" then u.greeting ++ " " ++ base else base
  if u.farewell != "" then withGreeting ++ " " ++ u.farewell else withGreeting

/-- The auto-reply policy test of `process_auto_replies`:
`user.auto_reply_five_stars and review.stars == 5 and
(not review.cons or review.cons.strip() == "" or review.cons.lower() == "не указаны")`.
`none` models `.strip()` raising on a truthy non-string `cons`
(caught by the per-review `except`). -/
def autoReplyCond (u : UserSettings) (r : Review) : Option Bool :=
  if !u.auto_reply_five_stars then some false
  else if !pyEqInt r.stars 5 then some false
  else if !truthy r.cons then some true
  else
    match r.cons with
    | .str s => some (pyStrip s == "" || pyLower s == "не указаны")
    | _ => none

/-- The store query `filter_by(user_id=..., is_answered=False)` row
condition on `is_answered`: SQL `is_answered = 0` matches a stored
boolean false or integer 0. -/
def isUnanswered (r : Review) : Bool :=
  match r.is_answered with
  | .bool b => !b
  | .num n => n == 0
  | _ => false

/-- One iteration of the `process_auto_replies` loop on a row the query
selected: on a policy match send the composed reply through the remote
client (`send : feedback_id → text → success`), and only on a `true`
result mutate the row (`is_answered = True`, `response = text`) and
count it. -/
def autoReplyRow (u : UserSettings) (send : String → String → Bool)
    (r : Review) : Review × Nat :=
  if isUnanswered r then
    match autoReplyCond u r with
    | some true =>
      let text := auto_reply_text u
      if send r.source_api_id text then
        ({ r with is_answered := .bool true, response := .str text }, 1)
      else (r, 0)
    | _ => (r, 0)
  else (r, 0)

/-- `process_auto_replies(user, wb_api, session)`: scan the account's
unanswered rows, auto-replying to policy matches; returns the updated
store and the count of successful auto-replies. -/
def process_auto_replies (u : UserSettings) (send : String → String → Bool)
    (store : List Review) : List Review × Nat :=
  store.foldl
    (fun acc r =>
      let step := autoReplyRow u send r
      (acc.1 ++ [step.1], acc.2 + step.2))
    ([], 0)

/-- The body of `check_new_reviews` for one account, with the remote
fetch result passed in as `raws`: skip the account when it has no API
key or the fetch returned no raw reviews (`if not raw_reviews:
continue`); otherwise ingest, then run the auto-reply pass when the
account enables it.  Returns (store, inserted count, auto-replied
count). -/
def check_new_reviews_user (lib : PyJsonLib) (u : UserSettings)
    (send : String → String → Bool) (raws : List Json)
    (store : List Review) : List Review × Nat × Nat :=
  if u.wb_api_key == "" then (store, 0, 0)
  else if raws.isEmpty then (store, 0, 0)
  else
    let ingested := ingestReviews lib u.user_id raws store
    if u.auto_reply_enabled then
      let replied := process_auto_replies u send ingested.1
      (replied.1, ingested.2, replied.2)
    else (ingested.1, ingested.2, 0)

/-! ## `WildberriesAPI._make_request` (wb_api.py lines 35-150) -/

/-- What one attempt of the HTTP transport produces, as scripted by a
mock: a timeout, an `aiohttp.ClientError`, some other exception, or an
HTTP response with a status, an optional integer `Retry-After` header,
and a body (`none` = a body that is not valid JSON). -/
inductive Attempt where
  | timeout
  | clientError (msg : String)
  | otherError (msg : String)
  | hr (status : Nat) (retryAfter : Option Nat) (body : Option Json)

/-- The structured error dict `{"error": {"message": last_error}}`
returned when all attempts are exhausted (`last_error` may still be
`None`). -/
def errorJson (m : Option String) : Json :=
  .obj [("error", .obj [("message", match m with | some s => .str s | none => .null)])]

/-- An error dict with a concrete message string. -/
def mkErr (s : String) : Json :=
  .obj [("error", .obj [("message", .str s)])]

/-- The result of `_make_request` together with its observable effects:
the `asyncio.sleep` durations performed (in order) and the number of
transport attempts actually made. -/
structure ReqOut where
  result : Json
  sleeps : List Nat
  calls : Nat

/-- The `while attempts < retry_count` loop of `_make_request`.
`fuel` only bounds the recursion; it starts at `retryCount` and every
iteration consumes one unit while incrementing `attempts`, so the
`fuel = 0` fallback returns exactly what the loop-exit return does and
is reached exactly when the `while` condition fails.  Per iteration
(attempt number `a = attempts + 1`, transport event `script attempts`):
a 429 sleeps the `Retry-After` duration (default 5) and continues; a
non-JSON body returns an error dict immediately; a 401/403 returns an
authentication error immediately; another status ≥ 400 sleeps
`2 ^ a` and continues while attempts remain, else returns an error; a
timeout / client error sleeps `2 ^ a` recording the error; another
exception sleeps 1 second; a status < 400 with a JSON dict body returns
it (a non-dict JSON body is wrapped as `{"data": body}`). -/
def makeRequestLoop (script : Nat → Attempt) (retryCount : Nat) :
    Nat → Nat → Option String → List Nat → ReqOut
  | 0, attempts, lastError, sleeps => ⟨errorJson lastError, sleeps, attempts⟩
  | fuel + 1, attempts, lastError, sleeps =>
    if attempts < retryCount then
      let a := attempts + 1
      match script attempts with
      | .timeout =>
        makeRequestLoop script retryCount fuel a (some "Request timeout")
          (sleeps ++ [2 ^ a])
      | .clientError msg =>
        makeRequestLoop script retryCount fuel a
          (some ("HTTP client error: " ++ msg)) (sleeps ++ [2 ^ a])
      | .otherError msg =>
        makeRequestLoop script retryCount fuel a
          (some ("Unexpected error: " ++ msg)) (sleeps ++ [1])
      | .hr status retryAfter body =>
        if status == 429 then
          makeRequestLoop script retryCount fuel a lastError
            (sleeps ++ [retryAfter.getD 5])
        else
          match body with
          | none =>
            ⟨mkErr ("Invalid JSON response (Status: " ++ toString status ++ ")"),
              sleeps, a⟩
          | some bj =>
            if status ≥ 400 then
              if status == 401 || status == 403 then
                ⟨mkErr ("Authentication error (Status: " ++ toString status ++ ")"),
                  sleeps, a⟩
              else if a < retryCount then
                makeRequestLoop script retryCount fuel a lastError
                  (sleeps ++ [2 ^ a])
              else
                ⟨mkErr ("API error after " ++ toString retryCount ++
                    " retries (Status: " ++ toString status ++ ")"),
                  sleeps, a⟩
            else
              match bj with
              | .obj kvs => ⟨.obj kvs, sleeps, a⟩
              | b => ⟨.obj [("data", b)], sleeps, a⟩
    else ⟨errorJson lastError, sleeps, attempts⟩

/-- `_make_request` against a scripted transport, with the default
`retry_count = 3` supplied by callers. -/
def make_request (script : Nat → Attempt) (retryCount : Nat) : ReqOut :=
  makeRequestLoop script retryCount retryCount 0 none []

/-! ## `get_unanswered_reviews` (wb_api.py lines 202-262) -/

/-- A query-parameter value (int or string) as built by
`get_unanswered_reviews` before `_make_request` serializes it. -/
inductive ParamV where
  | pstr (s : String)
  | pint (n : Int)
deriving DecidableEq

/-- The query parameters built by `get_unanswered_reviews`: always
`take`, `skip`, `order`; `isAnswered` as the lowercase token `"true"` /
`"false"` only when the tri-state filter is not `None`; `nmId` only
when given. -/
def gur_params (is_answered : Option Bool) (take skip : Int)
    (nmId : Option Int) (order : String) : List (String × ParamV) :=
  let base := [("take", ParamV.pint take), ("skip", ParamV.pint skip),
    ("order", ParamV.pstr order)]
  let withAnswered :=
    match is_answered with
    | some b => base ++ [("isAnswered", ParamV.pstr (if b then "true" else "false"))]
    | none => base
  match nmId with
  | some n => withAnswered ++ [("nmId", ParamV.pint n)]
  | none => withAnswered

/-- The Python default arguments of `get_unanswered_reviews`:
`is_answered=False, take=5000, skip=0, nmId=None, order="dateDesc"`. -/
def gurDefaultOrder : String := "dateDesc"

/-- The truthy-error test `"error" in response and response["error"]`
applied to a `_make_request` result (always a dict). -/
def errTruthy (resp : Json) : Bool :=
  match resp with
  | .obj kvs =>
    match List.lookup "error" kvs with
    | some v => truthy v
    | none => false
  | _ => false

/-- The response handling of `get_unanswered_reviews`: `[]` on a truthy
error member, otherwise `response.get("data", {}).get("feedbacks", [])`
— where a non-dict `data` raises `AttributeError` (caught, `[]`) and a
non-list `feedbacks` is rejected (`[]`). -/
def extractFeedbacks (resp : Json) : List Json :=
  if errTruthy resp then []
  else
    match resp with
    | .obj kvs =>
      match dget kvs "data" (.obj []) with
      | .obj dkvs =>
        match dget dkvs "feedbacks" (.arr []) with
        | .arr l => l
        | _ => []
      | _ => []
    | _ => []

/-- `get_unanswered_reviews` end to end against a scripted transport
(the callers use the default `retry_count = 3`): never raises, returns
the feedback list or degrades to `[]`. -/
def get_unanswered_reviews_run (script : Nat → Attempt) : List Json :=
  extractFeedbacks (make_request script 3).result

/-! ## `send_reply` (wb_api.py lines 302-341) -/

/-- `send_reply(feedback_id, text)` against a scripted transport:
reject empty arguments before any network call, otherwise report
success iff the `_make_request` result carries no truthy `"error"`
member.  The second component is the number of transport attempts made
(0 = no network call). -/
def send_reply (script : Nat → Attempt) (feedback_id text : String) :
    Bool × Nat :=
  if feedback_id == "" || text == "" then (false, 0)
  else
    let out := make_request script 3
    (!errTruthy out.result, out.calls)

/-! ## Spec-side predicates (formalizing the claims' vocabulary) -/

/-- The uniqueness invariant of the reviews table: no two stored rows
share the same (source id, account id) pair. -/
def PairUnique (store : List Review) : Prop :=
  store.Pairwise fun a b =>
    ¬(a.source_api_id = b.source_api_id ∧ a.user_id = b.user_id)

/-- Whether a JSON value is a string. -/
def isStrB : Json → Bool
  | .str _ => true
  | _ => false

/-- Whether a JSON value is a bool. -/
def isBoolB : Json → Bool
  | .bool _ => true
  | _ => false

/-- Whether a JSON value is a dict. -/
def isObjB : Json → Bool
  | .obj _ => true
  | _ => false

/-- Whether a JSON value is a list. -/
def isArrB : Json → Bool
  | .arr _ => true
  | _ => false

/-- The claim's type-correctness of a normalized review: every field of
the normalized shape holds a value of its declared type.  The fields
the source builds with `str()` / `int()` / bool / `json.dumps`
(`source_api_id`, `stars`, `photo_url`, `photo_urls`, `product_id`) are
typed by construction, so only the pass-through fields are tested. -/
def normTypeCorrect (nd : NormalizedReview) : Bool :=
  isStrB nd.comment && isStrB nd.pros && isStrB nd.cons
    && isBoolB nd.is_answered && isStrB nd.response
    && isStrB nd.product_name && isStrB nd.supplier_article
    && isStrB nd.subject_name

/-- The claim's description of the per-record photo extraction: the
`fullSize` URL if present, else the `miniSize` URL, else nothing. -/
def photoRecordPick : Json → Option Json
  | .obj kvs =>
    match List.lookup "fullSize" kvs with
    | some v => some v
    | none => List.lookup "miniSize" kvs
  | _ => none

/-- A concrete `json` library stub for closed instances: a decoder that
always fails and a serializer returning `""` (neither is consulted by
the instances below). -/
def stubLib : PyJsonLib := ⟨fun _ => none, fun _ => ""⟩

/-- A concrete account for closed instances: auto-reply enabled,
five-star auto-reply enabled, no greeting or farewell. -/
def wUser : UserSettings :=
  { user_id := 1, wb_api_key := "key", notifications_enabled := false,
    auto_reply_enabled := true, auto_reply_five_stars := true,
    greeting := "", farewell := "" }

/-- A concrete stored review for closed instances: five stars, blank
cons, unanswered. -/
def wReview : Review :=
  { source_api_id := "f1", user_id := 1, stars := .num 5,
    comment := .str "Отлично", pros := .str "", cons := .str "",
    photo_url := .bool false, photo_urls := .str "[]",
    response := .str "", is_answered := .bool false,
    product_name := .str "", product_id := .str "",
    supplier_article := .str "", subject_name := .str "" }

/-- A concrete raw review with a non-blank comment, whose source id
collides with `wReview`. -/
def wRaw : Json := .obj [("id", .str "f1"), ("text", .str "Отлично")]

/-- The normalized record of `wRaw`. -/
def wNd : NormalizedReview :=
  { source_api_id := "f1", stars := 0, comment := .str "Отлично",
    pros := .str "", cons := .str "", photo_url := false, photo_urls := "[]",
    is_answered := .bool false, response := .str "", product_name := .str "",
    product_id := "", supplier_article := .str "", subject_name := .str "" }

/-- The claim's noise review: blank comment, placeholder pros, blank
cons, no photos. -/
def wRawNoise : Json :=
  .obj [("text", .str ""), ("pros", .str "не указаны"), ("cons", .str "")]

/-- The normalized record of `wRawNoise`. -/
def wNdNoise : NormalizedReview :=
  { source_api_id := "", stars := 0, comment := .str "",
    pros := .str "не указаны", cons := .str "", photo_url := false,
    photo_urls := "[]", is_answered := .bool false, response := .str "",
    product_name := .str "", product_id := "", supplier_article := .str "",
    subject_name := .str "" }

/-- The normalized record of the malformed raw review
`{"text": 123}`: the comment field passes the number through. -/
def wNdBad : NormalizedReview :=
  { source_api_id := "", stars := 0, comment := .num 123, pros := .str "",
    cons := .str "", photo_url := false, photo_urls := "[]",
    is_answered := .bool false, response := .str "", product_name := .str "",
    product_id := "", supplier_article := .str "", subject_name := .str "" }


/-! ## Helper lemmas -/

/-- A row the unanswered-query selected does not already carry
`is_answered = True`. -/
theorem is_answered_ne_true_of_unanswered (r : Review)
    (h : isUnanswered r = true) : ¬r.is_answered = Json.bool true := by
  intro he
  unfold isUnanswered at h
  rw [he] at h
  simp at h

/-- The `process_auto_replies` fold, run from an arbitrary accumulator,
appends the per-row results and adds the per-row counts. -/
theorem process_auto_replies_foldl (u : UserSettings)
    (send : String → String → Bool) :
    ∀ (S l : List Review) (n : Nat),
      S.foldl (fun acc r =>
          let step := autoReplyRow u send r
          (acc.1 ++ [step.1], acc.2 + step.2)) (l, n)
        = (l ++ S.map (fun r => (autoReplyRow u send r).1),
           n + (S.map (fun r => (autoReplyRow u send r).2)).sum) := by
  intro S
  induction S with
  | nil => intro l n; simp
  | cons r S ih =>
    intro l n
    simp only [List.foldl_cons, List.map_cons, List.sum_cons]
    rw [ih]
    simp [List.append_assoc, Nat.add_assoc]

/-- The store returned by `process_auto_replies` is the input store with
each row rewritten by the per-row step. -/
theorem process_auto_replies_fst (u : UserSettings)
    (send : String → String → Bool) (S : List Review) :
    (process_auto_replies u send S).1
      = S.map fun r => (autoReplyRow u send r).1 := by
  unfold process_auto_replies
  rw [process_auto_replies_foldl]
  simp

/-! ## Claim C2 -/

/-- Claim C2: in `process_auto_replies`, every stored unanswered review
row ends up mutated (answered flag set true and response set to the
composed text) if and only if the policy matched and the remote
`send_reply` call returned true; whenever that fails — in particular
whenever the send returned false — the row is left exactly unchanged,
so it stays eligible for retry on the next pass. -/
theorem claim_C2_commit_on_confirmed_send :
    ∀ (u : UserSettings) (send : String → String → Bool) (S : List Review),
      (process_auto_replies u send S).1
          = S.map (fun r => (autoReplyRow u send r).1)
      ∧ ∀ r ∈ S, isUnanswered r = true →
          (((autoReplyRow u send r).1.is_answered = Json.bool true
              ∧ (autoReplyRow u send r).1.response
                  = Json.str (auto_reply_text u))
            ↔ (autoReplyCond u r = some true
                ∧ send r.source_api_id (auto_reply_text u) = true))
          ∧ (¬(autoReplyCond u r = some true
                ∧ send r.source_api_id (auto_reply_text u) = true) →
              (autoReplyRow u send r).1 = r) := by
  intro u send S
  refine ⟨process_auto_replies_fst u send S, ?_⟩
  intro r _ hun
  have hne := is_answered_ne_true_of_unanswered r hun
  unfold autoReplyRow
  rw [hun]
  simp only [if_true]
  cases hc : autoReplyCond u r with
  | none => simp [hne]
  | some b =>
    cases b with
    | false => simp [hne]
    | true =>
      cases hs : send r.source_api_id (auto_reply_text u) with
      | false => simp [hne]
      | true => simp

/-! ## Claim C9 -/

/-- Claim C9: the auto-reply policy predicate of `process_auto_replies`
matches exactly when the account's five-star toggle is set, the row's
rating equals 5 and its cons field is blank or equals the placeholder
«не указаны» case-insensitively; an unanswered row is attempted (the
remote send consulted) exactly when the predicate matches; and the
composed text is optional greeting, fixed body, optional farewell,
joined with single spaces. -/
theorem claim_C9_policy_predicate_and_composition :
    (∀ (u : UserSettings) (r : Review) (k : Int) (c : String),
        r.stars = Json.num k → r.cons = Json.str c →
        (autoReplyCond u r = some true ↔
          (u.auto_reply_five_stars = true ∧ k = 5
            ∧ (pyStrip c = "" ∨ pyLower c = "не указаны"))))
    ∧ (∀ u : UserSettings,
        auto_reply_text u
          = (if u.greeting = "" then "" else u.greeting ++ " ")
            ++ "Спасибо за вашу высокую оценку! Мы очень рады, что вам понравился наш товар. Будем и дальше стараться радовать вас качеством нашей продукции."
            ++ (if u.farewell = "" then "" else " " ++ u.farewell))
    ∧ (∀ (u : UserSettings) (send : String → String → Bool) (r : Review),
        ¬(isUnanswered r = true ∧ autoReplyCond u r = some true) →
        autoReplyRow u send r = (r, 0))
    ∧ (∀ (u : UserSettings) (send : String → String → Bool) (r : Review),
        isUnanswered r = true → autoReplyCond u r = some true →
        autoReplyRow u send r
          = if send r.source_api_id (auto_reply_text u)
            then ({ r with is_answered := Json.bool true, response := Json.str (auto_reply_text u) }, 1)
            else (r, 0)) := by
  refine ⟨?_, ?_, ?_, ?_⟩
  · intro u r k c hk hc
    unfold autoReplyCond
    rw [hk, hc]
    by_cases hf : u.auto_reply_five_stars
    · by_cases h5 : k = 5
      · by_cases hce : c = ""
        · subst hce
          simp [hf, h5, pyEqInt, truthy, pyStrip, pyStripList]
        · simp [hf, h5, pyEqInt, truthy, hce]
      · simp [hf, h5, pyEqInt]
    · simp [hf]
  · intro u
    unfold auto_reply_text
    by_cases hg : u.greeting = "" <;> by_cases hw : u.farewell = "" <;>
      simp [hg, hw, ← String.append_assoc]
  · intro u send r h
    unfold autoReplyRow
    by_cases hun : isUnanswered r
    · rw [hun]
      simp only [if_true]
      cases hc : autoReplyCond u r with
      | none => rfl
      | some b =>
        cases b with
        | false => rfl
        | true => exact absurd ⟨hun, hc⟩ h
    · simp [hun]
  · intro u send r hun hc
    unfold autoReplyRow
    rw [hun, hc]
    cases hs : send r.source_api_id (auto_reply_text u) <;> simp [hs]

/-- Witness for claim C9 at a concrete account and row. -/
theorem claim_C9_witness :
    autoReplyCond wUser wReview = some true
      ∧ auto_reply_text wUser
          = "Спасибо за вашу высокую оценку! Мы очень рады, что вам понравился наш товар. Будем и дальше стараться радовать вас качеством нашей продукции."
      ∧ autoReplyRow wUser (fun _ _ => false) wReview = (wReview, 0) := by
  refine ⟨?_, ?_, ?_⟩
  · exact (claim_C9_policy_predicate_and_composition.1 wUser wReview 5 ""
      rfl rfl).mpr ⟨rfl, rfl, Or.inl rfl⟩
  · have h := claim_C9_policy_predicate_and_composition.2.1 wUser
    simpa using h
  · have hcond := (claim_C9_policy_predicate_and_composition.1 wUser wReview 5 ""
      rfl rfl).mpr ⟨rfl, rfl, Or.inl rfl⟩
    rw [claim_C9_policy_predicate_and_composition.2.2.2 wUser
      (fun _ _ => false) wReview rfl hcond]
    rfl

/-- Witness for claim C2 at a concrete account and row: a mock returning
false leaves the row untouched; a mock returning true marks it answered
with the composed text. -/
theorem claim_C2_witness :
    (autoReplyRow wUser (fun _ _ => false) wReview).1 = wReview
      ∧ (autoReplyRow wUser (fun _ _ => true) wReview).1.is_answered
          = Json.bool true := by
  constructor
  · exact ((claim_C2_commit_on_confirmed_send wUser (fun _ _ => false)
      [wReview]).2 wReview (by simp) rfl).2 (by simp)
  · exact (((claim_C2_commit_on_confirmed_send wUser (fun _ _ => true)
      [wReview]).2 wReview (by simp) rfl).1.mpr ⟨by decide, rfl⟩).1

/-! ## Claim C10 -/

/-- Claim C10: when the remote fetch for an account yields no raw
reviews (including a remote error degraded to the empty list), the
sweep body skips everything for that account — the store is unchanged,
nothing is inserted, and no auto-reply is attempted. -/
theorem claim_C10_empty_fetch_skips_account :
    ∀ (lib : PyJsonLib) (u : UserSettings) (send : String → String → Bool)
      (S : List Review),
      check_new_reviews_user lib u send [] S = (S, 0, 0) := by
  intro lib u send S
  unfold check_new_reviews_user
  by_cases h : u.wb_api_key == "" <;> simp [h]

/-! ## Claim C1: helper lemmas -/

/-- One ingestion step either keeps the store or appends rows. -/
theorem reviewStep_append (lib : PyJsonLib) (uid : Int)
    (acc : List Review × Nat) (raw : Json) :
    ∃ Δ, (reviewStep lib uid acc raw).1 = acc.1 ++ Δ := by
  unfold reviewStep
  cases hn : normalize_review_fields lib raw with
  | none => exact ⟨[], by simp⟩
  | some nd =>
    by_cases he : reviewExists acc.1 nd.source_api_id uid
    · exact ⟨[], by simp [he]⟩
    · cases hc : hasContent nd with
      | none => exact ⟨[], by simp [he, hc]⟩
      | some b =>
        cases b with
        | false => exact ⟨[], by simp [he, hc]⟩
        | true => exact ⟨[mkRow uid nd], by simp [he, hc]⟩

/-- `reviewExists` is monotone under store growth. -/
theorem reviewExists_append (S Δ : List Review) (sid : String) (uid : Int)
    (h : reviewExists S sid uid = true) :
    reviewExists (S ++ Δ) sid uid = true := by
  unfold reviewExists at h ⊢
  rw [List.any_append, h]
  rfl

/-- A stored (source id, account id) pair survives the ingestion fold. -/
theorem foldl_reviewStep_exists_mono (lib : PyJsonLib) (uid : Int)
    (sid : String) (quid : Int) :
    ∀ (raws : List Json) (acc : List Review × Nat),
      reviewExists acc.1 sid quid = true →
      reviewExists (raws.foldl (reviewStep lib uid) acc).1 sid quid = true := by
  intro raws
  induction raws with
  | nil => intro acc h; exact h
  | cons r rs ih =>
    intro acc h
    rw [List.foldl_cons]
    apply ih
    obtain ⟨Δ, hΔ⟩ := reviewStep_append lib uid acc r
    rw [hΔ]
    exact reviewExists_append _ _ _ _ h

/-- After the ingestion fold, every raw review that normalizes and
passes the content filter has its (source id, account id) pair present
in the resulting store (it was either already there, or skipped as a
duplicate of an earlier insert, or inserted). -/
theorem foldl_reviewStep_covers (lib : PyJsonLib) (uid : Int) :
    ∀ (raws : List Json) (acc : List Review × Nat) (raw : Json),
      raw ∈ raws →
      ∀ nd, normalize_review_fields lib raw = some nd →
        hasContent nd = some true →
        reviewExists (raws.foldl (reviewStep lib uid) acc).1
          nd.source_api_id uid = true := by
  intro raws
  induction raws with
  | nil => intro acc raw h; exact absurd h (List.not_mem_nil raw)
  | cons r rs ih =>
    intro acc raw hmem nd hn hc
    rw [List.foldl_cons]
    rcases List.mem_cons.mp hmem with heq | hmem'
    · subst heq
      apply foldl_reviewStep_exists_mono
      unfold reviewStep
      simp only [hn]
      by_cases he : reviewExists acc.1 nd.source_api_id uid
      · simp [he]
      · rw [if_neg he, hc]
        simp [reviewExists, List.any_append, mkRow]
    · exact ih (reviewStep lib uid acc r) raw hmem' nd hn hc

/-- When every raw review that normalizes and passes the content filter
already has its pair stored, the ingestion fold changes nothing and
counts nothing. -/
theorem foldl_reviewStep_stable (lib : PyJsonLib) (uid : Int) :
    ∀ (raws : List Json) (acc : List Review × Nat),
      (∀ raw ∈ raws, ∀ nd, normalize_review_fields lib raw = some nd →
        hasContent nd = some true →
        reviewExists acc.1 nd.source_api_id uid = true) →
      raws.foldl (reviewStep lib uid) acc = acc := by
  intro raws
  induction raws with
  | nil => intro acc _; rfl
  | cons r rs ih =>
    intro acc h
    rw [List.foldl_cons]
    have hstep : reviewStep lib uid acc r = acc := by
      unfold reviewStep
      cases hn : normalize_review_fields lib r with
      | none => rfl
      | some nd =>
        by_cases he : reviewExists acc.1 nd.source_api_id uid
        · simp [he]
        · cases hc : hasContent nd with
          | none => simp [he, hc]
          | some b =>
            cases b with
            | false => simp [he, hc]
            | true =>
              exact absurd (h r (List.mem_cons_self r rs) nd hn hc) he
    rw [hstep]
    exact ih acc fun raw hm => h raw (List.mem_cons_of_mem r hm)

/-- The auto-reply pass rewrites rows in place without changing their
(source id, account id) identity. -/
theorem autoReplyRow_preserves_key (u : UserSettings)
    (send : String → String → Bool) (r : Review) :
    (autoReplyRow u send r).1.source_api_id = r.source_api_id
      ∧ (autoReplyRow u send r).1.user_id = r.user_id := by
  unfold autoReplyRow
  by_cases hun : isUnanswered r
  · rw [hun]
    simp only [if_true]
    cases hc : autoReplyCond u r with
    | none => exact ⟨rfl, rfl⟩
    | some b =>
      cases b with
      | false => exact ⟨rfl, rfl⟩
      | true =>
        cases hs : send r.source_api_id (auto_reply_text u) <;> simp
  · simp [hun]

/-- `reviewExists` is unchanged by the auto-reply pass. -/
theorem reviewExists_process_auto_replies (u : UserSettings)
    (send : String → String → Bool) (S : List Review) (sid : String)
    (uid : Int) :
    reviewExists (process_auto_replies u send S).1 sid uid
      = reviewExists S sid uid := by
  rw [process_auto_replies_fst]
  unfold reviewExists
  rw [List.any_map]
  congr 1
  funext r
  obtain ⟨h1, h2⟩ := autoReplyRow_preserves_key u send r
  simp [Function.comp, h1, h2]

/-- A negative duplicate check means no stored row carries the pair. -/
theorem not_pair_of_not_exists (S : List Review) (sid : String) (uid : Int)
    (h : reviewExists S sid uid = false) :
    ∀ r ∈ S, ¬(r.source_api_id = sid ∧ r.user_id = uid) := by
  intro r hr
  unfold reviewExists at h
  rw [List.any_eq_false] at h
  have := h r hr
  simpa using this

/-- One ingestion step preserves the uniqueness invariant: it only
inserts when the duplicate check was negative. -/
theorem reviewStep_pairUnique (lib : PyJsonLib) (uid : Int)
    (acc : List Review × Nat) (raw : Json) (h : PairUnique acc.1) :
    PairUnique (reviewStep lib uid acc raw).1 := by
  unfold reviewStep
  cases hn : normalize_review_fields lib raw with
  | none => exact h
  | some nd =>
    by_cases he : reviewExists acc.1 nd.source_api_id uid
    · simpa [he] using h
    · cases hc : hasContent nd with
      | none => simpa [he, hc] using h
      | some b =>
        cases b with
        | false => simpa [he, hc] using h
        | true =>
          have hf : reviewExists acc.1 nd.source_api_id uid = false := by
            simpa using he
          simp only [hf, hc, Bool.false_eq_true, if_false]
          unfold PairUnique at h ⊢
          rw [List.pairwise_append]
          refine ⟨h, List.pairwise_singleton _ _, ?_⟩
          intro a ha b hb
          rw [List.mem_singleton] at hb
          subst hb
          have := not_pair_of_not_exists acc.1 _ _ hf a ha
          simpa [mkRow] using this

/-- The whole ingestion fold preserves the uniqueness invariant. -/
theorem foldl_reviewStep_pairUnique (lib : PyJsonLib) (uid : Int) :
    ∀ (raws : List Json) (acc : List Review × Nat), PairUnique acc.1 →
      PairUnique (raws.foldl (reviewStep lib uid) acc).1 := by
  intro raws
  induction raws with
  | nil => intro acc h; exact h
  | cons r rs ih =>
    intro acc h
    rw [List.foldl_cons]
    exact ih _ (reviewStep_pairUnique lib uid acc r h)

/-- The auto-reply pass preserves the uniqueness invariant (it never
touches the key fields). -/
theorem process_auto_replies_pairUnique (u : UserSettings)
    (send : String → String → Bool) (S : List Review)
    (h : PairUnique S) : PairUnique (process_auto_replies u send S).1 := by
  rw [process_auto_replies_fst]
  unfold PairUnique at h ⊢
  rw [List.pairwise_map]
  refine h.imp ?_
  intro a b hab
  obtain ⟨ha1, ha2⟩ := autoReplyRow_preserves_key u send a
  obtain ⟨hb1, hb2⟩ := autoReplyRow_preserves_key u send b
  rw [ha1, ha2, hb1, hb2]
  exact hab

/-! ## Claim C1 -/

/-- Claim C1: ingestion is idempotent.  Running the per-account sweep a
second time against the same remote raw-review list inserts zero new
rows; a raw review whose (source id, account id) pair is already stored
is skipped without insert and without error; and the sweep preserves
the invariant that no two stored rows share a (source id, account id)
pair. -/
theorem claim_C1_idempotent_ingestion :
    (∀ (lib : PyJsonLib) (u : UserSettings) (send : String → String → Bool)
        (raws : List Json) (S : List Review),
        (check_new_reviews_user lib u send raws
            (check_new_reviews_user lib u send raws S).1).2.1 = 0)
    ∧ (∀ (lib : PyJsonLib) (uid : Int) (S : List Review) (n : Nat)
        (raw : Json) (nd : NormalizedReview),
        normalize_review_fields lib raw = some nd →
        reviewExists S nd.source_api_id uid = true →
        reviewStep lib uid (S, n) raw = (S, n))
    ∧ (∀ (lib : PyJsonLib) (u : UserSettings) (send : String → String → Bool)
        (raws : List Json) (S : List Review),
        PairUnique S →
        PairUnique (check_new_reviews_user lib u send raws S).1) := by
  refine ⟨?_, ?_, ?_⟩
  · intro lib u send raws S
    unfold check_new_reviews_user
    by_cases hkey : u.wb_api_key == ""
    · simp [hkey]
    · by_cases hraw : raws.isEmpty
      · simp [hkey, hraw]
      · by_cases hauto : u.auto_reply_enabled
        · simp only [hkey, hraw, hauto, if_false, if_true, Bool.false_eq_true]
          have hcov : ∀ raw ∈ raws, ∀ nd,
              normalize_review_fields lib raw = some nd →
              hasContent nd = some true →
              reviewExists ((process_auto_replies u send
                  (ingestReviews lib u.user_id raws S).1).1, 0).1
                nd.source_api_id u.user_id = true := by
            intro raw hm nd hn hc
            rw [reviewExists_process_auto_replies]
            exact foldl_reviewStep_covers lib u.user_id raws (S, 0) raw hm nd hn hc
          have hstab := foldl_reviewStep_stable lib u.user_id raws _ hcov
          unfold ingestReviews at hstab ⊢
          rw [hstab]
        · simp only [hkey, hraw, hauto, if_false, if_true, Bool.false_eq_true]
          have hcov : ∀ raw ∈ raws, ∀ nd,
              normalize_review_fields lib raw = some nd →
              hasContent nd = some true →
              reviewExists ((ingestReviews lib u.user_id raws S).1, 0).1
                nd.source_api_id u.user_id = true := by
            intro raw hm nd hn hc
            exact foldl_reviewStep_covers lib u.user_id raws (S, 0) raw hm nd hn hc
          have hstab := foldl_reviewStep_stable lib u.user_id raws _ hcov
          unfold ingestReviews at hstab ⊢
          rw [hstab]
  · intro lib uid S n raw nd hn he
    unfold reviewStep
    simp [hn, he]
  · intro lib u send raws S h
    unfold check_new_reviews_user
    by_cases hkey : u.wb_api_key == ""
    · simpa [hkey] using h
    · by_cases hraw : raws.isEmpty
      · simpa [hkey, hraw] using h
      · by_cases hauto : u.auto_reply_enabled
        · simp only [hkey, hraw, hauto, if_false, if_true, Bool.false_eq_true]
          exact process_auto_replies_pairUnique u send _
            (foldl_reviewStep_pairUnique lib u.user_id raws (S, 0) h)
        · simp only [hkey, hraw, hauto, if_false, if_true, Bool.false_eq_true]
          exact foldl_reviewStep_pairUnique lib u.user_id raws (S, 0) h

/-- Witness for claim C1: a raw review whose pair is already stored is
skipped without insert, and a concrete sweep preserves uniqueness. -/
theorem claim_C1_witness :
    reviewStep stubLib 1 ([wReview], 3) wRaw = ([wReview], 3)
      ∧ PairUnique
          (check_new_reviews_user stubLib wUser (fun _ _ => true) [wRaw] []).1 := by
  constructor
  · exact claim_C1_idempotent_ingestion.2.1 stubLib 1 [wReview] 3 wRaw wNd rfl rfl
  · exact claim_C1_idempotent_ingestion.2.2 stubLib wUser (fun _ _ => true)
      [wRaw] [] List.Pairwise.nil

/-! ## Claim C3 -/

/-- Claim C3: a normalized review that is new for its account is
inserted by the sweep if and only if its comment is non-blank, or its
pros (resp. cons) is non-blank and not case-insensitively equal to the
placeholder «не указаны», or it has photos; the all-noise raw review is
never inserted, and the raw review with comment «Отлично» is inserted
when new. -/
theorem claim_C3_content_filter :
    (∀ (lib : PyJsonLib) (uid : Int) (S : List Review) (n : Nat) (raw : Json)
        (nd : NormalizedReview) (c p co : String),
        normalize_review_fields lib raw = some nd →
        nd.comment = Json.str c → nd.pros = Json.str p →
        nd.cons = Json.str co →
        reviewExists S nd.source_api_id uid = false →
        (reviewStep lib uid (S, n) raw = (S ++ [mkRow uid nd], n + 1) ↔
          (pyStrip c ≠ "" ∨ (pyStrip p ≠ "" ∧ pyLower p ≠ "не указаны")
            ∨ (pyStrip co ≠ "" ∧ pyLower co ≠ "не указаны")
            ∨ nd.photo_url = true))
        ∧ (¬(pyStrip c ≠ "" ∨ (pyStrip p ≠ "" ∧ pyLower p ≠ "не указаны")
              ∨ (pyStrip co ≠ "" ∧ pyLower co ≠ "не указаны")
              ∨ nd.photo_url = true) →
            reviewStep lib uid (S, n) raw = (S, n)))
    ∧ (∀ (lib : PyJsonLib) (uid : Int) (S : List Review) (n : Nat),
        reviewStep lib uid (S, n) wRawNoise = (S, n))
    ∧ (∀ (lib : PyJsonLib) (uid : Int) (S : List Review) (n : Nat),
        reviewExists S "f1" uid = false →
        reviewStep lib uid (S, n) wRaw = (S ++ [mkRow uid wNd], n + 1)) := by
  refine ⟨?_, ?_, ?_⟩
  · intro lib uid S n raw nd c p co hn hcom hpros hcons he
    have hhc : hasContent nd
        = some ((pyStrip c != "") || (pyStrip p != "" && pyLower p != "не указаны")
            || (pyStrip co != "" && pyLower co != "не указаны") || nd.photo_url) := by
      simp only [hasContent, hcom, hpros, hcons]
    have hstep : reviewStep lib uid (S, n) raw
        = if ((pyStrip c != "") || (pyStrip p != "" && pyLower p != "не указаны")
            || (pyStrip co != "" && pyLower co != "не указаны") || nd.photo_url)
          then (S ++ [mkRow uid nd], n + 1) else (S, n) := by
      unfold reviewStep
      simp only [hn, he, Bool.false_eq_true, if_false, hhc]
      cases hbb : ((pyStrip c != "") || (pyStrip p != "" && pyLower p != "не указаны")
          || (pyStrip co != "" && pyLower co != "не указаны") || nd.photo_url) <;>
        simp [hbb]
    have hb : ((pyStrip c != "") || (pyStrip p != "" && pyLower p != "не указаны")
          || (pyStrip co != "" && pyLower co != "не указаны") || nd.photo_url) = true
        ↔ (pyStrip c ≠ "" ∨ (pyStrip p ≠ "" ∧ pyLower p ≠ "не указаны")
            ∨ (pyStrip co ≠ "" ∧ pyLower co ≠ "не указаны")
            ∨ nd.photo_url = true) := by
      simp only [Bool.or_eq_true, Bool.and_eq_true, bne_iff_ne, ne_eq]
      tauto
    rw [hstep]
    constructor
    · constructor
      · intro heq
        by_cases hbb : ((pyStrip c != "") || (pyStrip p != "" && pyLower p != "не указаны")
            || (pyStrip co != "" && pyLower co != "не указаны") || nd.photo_url)
        · exact hb.mp hbb
        · rw [if_neg hbb] at heq
          have := congrArg Prod.snd heq
          simp at this
      · intro hr
        rw [if_pos (hb.mpr hr)]
    · intro hneg
      have hf : ((pyStrip c != "") || (pyStrip p != "" && pyLower p != "не указаны")
          || (pyStrip co != "" && pyLower co != "не указаны") || nd.photo_url) = false := by
        cases hbb : ((pyStrip c != "") || (pyStrip p != "" && pyLower p != "не указаны")
            || (pyStrip co != "" && pyLower co != "не указаны") || nd.photo_url)
        · rfl
        · exact absurd (hb.mp hbb) hneg
      rw [hf]
      rfl
  · intro lib uid S n
    have hn : normalize_review_fields lib wRawNoise = some wNdNoise := rfl
    have hc : hasContent wNdNoise = some false := rfl
    simp only [reviewStep, hn, hc]
    split <;> rfl
  · intro lib uid S n he
    have hn : normalize_review_fields lib wRaw = some wNd := rfl
    have he' : reviewExists S wNd.source_api_id uid = false := he
    have hc : hasContent wNd = some true := rfl
    simp only [reviewStep, hn, he', Bool.false_eq_true, if_false, hc]

/-- Witness for claim C3: in an empty store, the noise review is not
inserted and the «Отлично» review is inserted. -/
theorem claim_C3_witness :
    reviewStep stubLib 1 ([], 0) wRawNoise = ([], 0)
      ∧ reviewStep stubLib 1 ([], 0) wRaw = ([mkRow 1 wNd], 1) := by
  constructor
  · exact claim_C3_content_filter.2.1 stubLib 1 [] 0
  · have h := claim_C3_content_filter.2.2 stubLib 1 [] 0 rfl
    simpa using h

/-! ## Claim C4: helper lemmas -/

/-- Main-path inversion of `normalize_review_fields` on a dict whose
`productValuation` coerces to an int. -/
theorem normalize_obj_main (lib : PyJsonLib) (kvs : List (String × Json))
    (k : Int) (hpi : pyInt (dget kvs "productValuation" (.num 0)) = some k) :
    normalize_review_fields lib (.obj kvs)
      = some
        { source_api_id := pyStr (dget kvs "id" (.str ""))
          stars := k
          comment := dget kvs "text" (.str "")
          pros := nullToEmpty (dget kvs "pros" (.str ""))
          cons := nullToEmpty (dget kvs "cons" (.str ""))
          photo_url := !(extract_photo_links lib (.obj kvs)).isEmpty
          photo_urls :=
            if (extract_photo_links lib (.obj kvs)).isEmpty then "[]"
            else lib.dumps (extract_photo_links lib (.obj kvs))
          is_answered := nullToFalse (dget kvs "isAnswered" (.bool false))
          response :=
            match dget kvs "answer" (.obj []) with
            | .obj akvs => dget akvs "text" (.str "")
            | _ => .str ""
          product_name :=
            match dget kvs "productDetails" (.obj []) with
            | .obj pd => dget pd "productName" (.str "")
            | _ => .str ""
          product_id :=
            match dget kvs "productDetails" (.obj []) with
            | .obj pd => pyStr (dget pd "nmId" (.str ""))
            | _ => ""
          supplier_article :=
            match dget kvs "productDetails" (.obj []) with
            | .obj pd => dget pd "supplierArticle" (.str "")
            | _ => .str ""
          subject_name := dget kvs "subjectName" (.str "") } := by
  unfold normalize_review_fields
  simp only [hpi]

/-- Except-path inversion of `normalize_review_fields` on a dict whose
`productValuation` fails int coercion. -/
theorem normalize_obj_except (lib : PyJsonLib) (kvs : List (String × Json))
    (hpi : pyInt (dget kvs "productValuation" (.num 0)) = none) :
    normalize_review_fields lib (.obj kvs)
      = some (normalizeExceptRecord kvs) := by
  unfold normalize_review_fields
  simp only [hpi]

/-- An absent key reads as the supplied default. -/
theorem dget_of_not_dhas (kvs : List (String × Json)) (k : String) (d : Json)
    (h : dhas kvs k = false) : dget kvs k d = d := by
  unfold dhas at h
  unfold dget
  cases hl : List.lookup k kvs with
  | none => rfl
  | some v => rw [hl] at h; simp at h

/-- A present key reads as its value. -/
theorem dget_of_lookup (kvs : List (String × Json)) (k : String) (d v : Json)
    (h : List.lookup k kvs = some v) : dget kvs k d = v := by
  unfold dget
  rw [h]

/-- An absent key has no lookup result. -/
theorem lookup_none_of_not_dhas (kvs : List (String × Json)) (k : String)
    (h : dhas kvs k = false) : List.lookup k kvs = none := by
  unfold dhas at h
  cases hl : List.lookup k kvs with
  | none => rfl
  | some v => rw [hl] at h; simp at h

/-! ## Claim C4 -/

/-- Counterexample to claim C4 as stated: `normalize_review_fields` is
not total-and-type-correct over all payloads.  On `{"text": 123}` it
returns a record whose comment field is the number 123 (present but not
type-correct, not the safe default), and on the truthy non-dict payload
`[1]` the `except` handler itself re-raises, so the function raises. -/
theorem claim_C4_counterexample :
    (¬∀ (lib : PyJsonLib) (raw : Json), ∃ nd,
        normalize_review_fields lib raw = some nd ∧ normTypeCorrect nd = true)
      ∧ normalize_review_fields stubLib (.obj [("text", .num 123)])
          = some wNdBad
      ∧ normTypeCorrect wNdBad = false
      ∧ normalize_review_fields stubLib (.arr [.num 1]) = none := by
  refine ⟨?_, rfl, rfl, rfl⟩
  intro h
  obtain ⟨nd, hn, ht⟩ := h stubLib (.obj [("text", .num 123)])
  have he : normalize_review_fields stubLib (.obj [("text", .num 123)])
      = some wNdBad := rfl
  rw [he] at hn
  injection hn with h'
  rw [← h'] at ht
  exact absurd ht (by decide)

/-- Claim C4, amended: `normalize_review_fields` never raises on a dict
payload (or a falsy one) and populates all 13 fields, with
`source_api_id`, `stars`, `photo_url`, `photo_urls`, `product_id`
always type-correct by construction.  Null-coercion exists only for
`pros`, `cons` and `isAnswered`, which get their safe defaults when
absent or null; `text` and `subjectName` are defaulted only when absent
— a present value, including null or a wrong-typed one, passes through
unchanged; `answer` and `productDetails` are defaulted when absent,
null or not a dict, but inside such a dict `answer.text`,
`productName` and `supplierArticle` pass through present values
(including null) unchanged, while `id` and `nmId` are stringified, so
null becomes `"None"`.  A non-coercible `productValuation` routes to
the `except` fallback record, whose fields are the safe defaults
except that `source_api_id` and `comment` are re-read through `str()`
from the dict's `id` and `text` (so a null there becomes `"None"`).  A
truthy non-dict payload raises. -/
theorem claim_C4_normalizer_amended :
    (∀ (lib : PyJsonLib) (j : Json), isObjB j = true ∨ truthy j = false →
        ∃ nd, normalize_review_fields lib j = some nd)
    ∧ (∀ (lib : PyJsonLib) (kvs : List (String × Json)) (nd : NormalizedReview),
        normalize_review_fields lib (.obj kvs) = some nd →
          (dhas kvs "pros" = false ∨ List.lookup "pros" kvs = some .null →
            nd.pros = .str "")
          ∧ (dhas kvs "cons" = false ∨ List.lookup "cons" kvs = some .null →
            nd.cons = .str "")
          ∧ (dhas kvs "text" = false → nd.comment = .str "")
          ∧ (dhas kvs "isAnswered" = false
              ∨ List.lookup "isAnswered" kvs = some .null →
            nd.is_answered = .bool false)
          ∧ (dhas kvs "subjectName" = false → nd.subject_name = .str "")
          ∧ (dhas kvs "productDetails" = false →
            nd.product_name = .str "" ∧ nd.product_id = ""
              ∧ nd.supplier_article = .str "")
          ∧ (dhas kvs "answer" = false → nd.response = .str ""))
    ∧ (∀ (lib : PyJsonLib) (kvs : List (String × Json))
        (nd : NormalizedReview) (k : Int),
        normalize_review_fields lib (.obj kvs) = some nd →
        pyInt (dget kvs "productValuation" (.num 0)) = some k →
          (∀ j, List.lookup "text" kvs = some j → nd.comment = j)
          ∧ (∀ j, List.lookup "pros" kvs = some j → j ≠ .null → nd.pros = j)
          ∧ (∀ j, List.lookup "cons" kvs = some j → j ≠ .null → nd.cons = j)
          ∧ (∀ j, List.lookup "isAnswered" kvs = some j → j ≠ .null →
              nd.is_answered = j)
          ∧ (List.lookup "id" kvs = some .null → nd.source_api_id = "None")
          ∧ (∀ j, List.lookup "subjectName" kvs = some j →
              nd.subject_name = j)
          ∧ (∀ akvs j, List.lookup "answer" kvs = some (.obj akvs) →
              List.lookup "text" akvs = some j → nd.response = j)
          ∧ (List.lookup "answer" kvs = some .null → nd.response = .str "")
          ∧ (∀ pd j, List.lookup "productDetails" kvs = some (.obj pd) →
              List.lookup "productName" pd = some j → nd.product_name = j)
          ∧ (∀ pd j, List.lookup "productDetails" kvs = some (.obj pd) →
              List.lookup "supplierArticle" pd = some j →
              nd.supplier_article = j)
          ∧ (∀ pd, List.lookup "productDetails" kvs = some (.obj pd) →
              List.lookup "nmId" pd = some .null → nd.product_id = "None")
          ∧ (List.lookup "productDetails" kvs = some .null →
              nd.product_name = .str "" ∧ nd.product_id = ""
                ∧ nd.supplier_article = .str ""))
    ∧ (∀ (lib : PyJsonLib) (kvs : List (String × Json)),
        pyInt (dget kvs "productValuation" (.num 0)) = none →
        normalize_review_fields lib (.obj kvs)
          = some (normalizeExceptRecord kvs))
    ∧ (∀ (lib : PyJsonLib) (kvs : List (String × Json)) (nd : NormalizedReview),
        pyInt (dget kvs "productValuation" (.num 0)) = none →
        normalize_review_fields lib (.obj kvs) = some nd →
          (List.lookup "text" kvs = some .null → nd.comment = .str "None")
          ∧ (List.lookup "id" kvs = some .null → nd.source_api_id = "None")
          ∧ nd.stars = 0 ∧ nd.pros = .str "" ∧ nd.cons = .str ""
          ∧ nd.is_answered = .bool false ∧ nd.response = .str "")
    ∧ (∀ (lib : PyJsonLib) (j : Json), isObjB j = false → truthy j = true →
        normalize_review_fields lib j = none) := by
  refine ⟨?_, ?_, ?_, ?_, ?_, ?_⟩
  · intro lib j h
    cases j with
    | obj kvs =>
      cases hpi : pyInt (dget kvs "productValuation" (.num 0)) with
      | some k => exact ⟨_, normalize_obj_main lib kvs k hpi⟩
      | none => exact ⟨_, normalize_obj_except lib kvs hpi⟩
    | null => exact ⟨_, rfl⟩
    | bool b =>
      rcases h with hobj | hfal
      · simp [isObjB] at hobj
      · cases b
        · exact ⟨_, rfl⟩
        · simp [truthy] at hfal
    | num n =>
      rcases h with hobj | hfal
      · simp [isObjB] at hobj
      · exact ⟨normalizeDefaultRecord, by simp [normalize_review_fields, hfal]⟩
    | str s =>
      rcases h with hobj | hfal
      · simp [isObjB] at hobj
      · exact ⟨normalizeDefaultRecord, by simp [normalize_review_fields, hfal]⟩
    | arr l =>
      rcases h with hobj | hfal
      · simp [isObjB] at hobj
      · exact ⟨normalizeDefaultRecord, by simp [normalize_review_fields, hfal]⟩
  · intro lib kvs nd hn
    cases hpi : pyInt (dget kvs "productValuation" (.num 0)) with
    | some k =>
      rw [normalize_obj_main lib kvs k hpi] at hn
      injection hn with h'
      subst h'
      refine ⟨?_, ?_, ?_, ?_, ?_, ?_, ?_⟩
      · rintro (habs | hnull)
        · simp [dget_of_not_dhas _ _ _ habs, nullToEmpty]
        · simp [dget_of_lookup _ _ _ _ hnull, nullToEmpty]
      · rintro (habs | hnull)
        · simp [dget_of_not_dhas _ _ _ habs, nullToEmpty]
        · simp [dget_of_lookup _ _ _ _ hnull, nullToEmpty]
      · intro habs
        simp [dget_of_not_dhas _ _ _ habs]
      · rintro (habs | hnull)
        · simp [dget_of_not_dhas _ _ _ habs, nullToFalse]
        · simp [dget_of_lookup _ _ _ _ hnull, nullToFalse]
      · intro habs
        simp [dget_of_not_dhas _ _ _ habs]
      · intro habs
        have hl := lookup_none_of_not_dhas _ _ habs
        refine ⟨?_, ?_, ?_⟩ <;> simp [dget, hl, pyStr]
      · intro habs
        have hl := lookup_none_of_not_dhas _ _ habs
        simp [dget, hl]
    | none =>
      rw [normalize_obj_except lib kvs hpi] at hn
      injection hn with h'
      subst h'
      refine ⟨?_, ?_, ?_, ?_, ?_, ?_, ?_⟩
      · intro _; rfl
      · intro _; rfl
      · intro habs
        by_cases hke : kvs.isEmpty <;>
          simp [normalizeExceptRecord, hke, dget_of_not_dhas _ _ _ habs, pyStr]
      · intro _; rfl
      · intro _; rfl
      · intro _; exact ⟨rfl, rfl, rfl⟩
      · intro _; rfl
  · intro lib kvs nd k hn hpi
    rw [normalize_obj_main lib kvs k hpi] at hn
    injection hn with h'
    subst h'
    refine ⟨?_, ?_, ?_, ?_, ?_, ?_, ?_, ?_, ?_, ?_, ?_, ?_⟩
    · intro j hl
      simp [dget_of_lookup _ _ _ _ hl]
    · intro j hl hnull
      rw [show nullToEmpty (dget kvs "pros" (.str "")) = nullToEmpty j by
        rw [dget_of_lookup _ _ _ _ hl]]
      cases j with
      | null => exact absurd rfl hnull
      | _ => rfl
    · intro j hl hnull
      rw [show nullToEmpty (dget kvs "cons" (.str "")) = nullToEmpty j by
        rw [dget_of_lookup _ _ _ _ hl]]
      cases j with
      | null => exact absurd rfl hnull
      | _ => rfl
    · intro j hl hnull
      rw [show nullToFalse (dget kvs "isAnswered" (.bool false)) = nullToFalse j by
        rw [dget_of_lookup _ _ _ _ hl]]
      cases j with
      | null => exact absurd rfl hnull
      | _ => rfl
    · intro hl
      simp [dget_of_lookup _ _ _ _ hl, pyStr]
    · intro j hl
      simp [dget_of_lookup _ _ _ _ hl]
    · intro akvs j hla hlt
      simp [dget_of_lookup _ _ _ _ hla, dget_of_lookup _ _ _ _ hlt]
    · intro hla
      simp [dget_of_lookup _ _ _ _ hla]
    · intro pd j hld hln
      simp [dget_of_lookup _ _ _ _ hld, dget_of_lookup _ _ _ _ hln]
    · intro pd j hld hln
      simp [dget_of_lookup _ _ _ _ hld, dget_of_lookup _ _ _ _ hln]
    · intro pd hld hln
      simp [dget_of_lookup _ _ _ _ hld, dget_of_lookup _ _ _ _ hln, pyStr]
    · intro hld
      refine ⟨?_, ?_, ?_⟩ <;> simp [dget_of_lookup _ _ _ _ hld]
  · intro lib kvs hpi
    exact normalize_obj_except lib kvs hpi
  · intro lib kvs nd hpi hn
    rw [normalize_obj_except lib kvs hpi] at hn
    injection hn with h'
    subst h'
    have hke : ∀ (key : String) (v : Json), List.lookup key kvs = some v →
        kvs.isEmpty = false := by
      intro key v hl
      cases kvs with
      | nil => simp at hl
      | cons kv rest => rfl
    refine ⟨?_, ?_, rfl, rfl, rfl, rfl, rfl⟩
    · intro hl
      simp [normalizeExceptRecord, hke "text" _ hl,
        dget_of_lookup _ _ _ _ hl, pyStr]
    · intro hl
      simp [normalizeExceptRecord, hke "id" _ hl,
        dget_of_lookup _ _ _ _ hl, pyStr]
  · intro lib j hobj htr
    cases j with
    | obj kvs => simp [isObjB] at hobj
    | null => simp [truthy] at htr
    | bool b => simp [normalize_review_fields, htr]
    | num n => simp [normalize_review_fields, htr]
    | str s => simp [normalize_review_fields, htr]
    | arr l => simp [normalize_review_fields, htr]

/-- Witness for the amended claim C4 at concrete payloads: a dict with
only a text field normalizes; `{"text": null}` passes the null through
into the comment on the main path; a non-coercible `productValuation`
gives the except record, where a null text stringifies to `"None"`;
and a truthy non-dict payload raises. -/
theorem claim_C4_witness :
    (∃ nd, normalize_review_fields stubLib (.obj [("text", .str "hi")])
        = some nd)
      ∧ (∃ nd, normalize_review_fields stubLib (.obj [("text", .null)])
          = some nd ∧ nd.comment = .null)
      ∧ normalize_review_fields stubLib
          (.obj [("productValuation", .str "abc")])
          = some (normalizeExceptRecord [("productValuation", .str "abc")])
      ∧ (∃ nd, normalize_review_fields stubLib
            (.obj [("text", .null), ("productValuation", .str "abc")])
          = some nd ∧ nd.comment = .str "None")
      ∧ normalize_review_fields stubLib (.str "oops") = none := by
  refine ⟨?_, ?_, ?_, ?_, ?_⟩
  · exact claim_C4_normalizer_amended.1 stubLib _ (Or.inl rfl)
  · have h := claim_C4_normalizer_amended.2.2.1 stubLib
      [("text", Json.null)] _ 0 rfl rfl
    exact ⟨_, rfl, h.1 Json.null rfl⟩
  · exact claim_C4_normalizer_amended.2.2.2.1 stubLib _ rfl
  · have h := claim_C4_normalizer_amended.2.2.2.2.1 stubLib
      [("text", Json.null), ("productValuation", Json.str "abc")] _ rfl rfl
    exact ⟨_, rfl, h.1 rfl⟩
  · exact claim_C4_normalizer_amended.2.2.2.2.2 stubLib _ rfl rfl

/-! ## Claim C5 -/

/-- Counterexample to claim C5 as stated: a 429 retry does count
against attempt exhaustion.  With the default budget of 3 attempts and
a transport answering 429 three times and then a clean 200, the code
returns the exhaustion error after 3 attempts (the 200 at attempt
index 3 is never requested), instead of eventually succeeding as
"retried without counting against attempt exhaustion" would require. -/
theorem claim_C5_counterexample :
    make_request (fun i => if i < 3 then .hr 429 none (some (.obj []))
        else .hr 200 none (some (.obj [("ok", .bool true)]))) 3
      = ⟨errorJson none, [5, 5, 5], 3⟩
    ∧ errorJson none ≠ .obj [("ok", .bool true)] := by
  constructor
  · rfl
  · simp [errorJson]

/-- Claim C5, amended: 401/403 responses (with a JSON body) are never
retried and immediately yield a structured auth-error result; a 429
sleeps the server-specified Retry-After duration (default 5 s) and
retries, but the 429 iteration does consume one of the 3 attempts;
other 4xx/5xx responses with JSON bodies and transport timeouts sleep
`2 ^ attempt` seconds and consume attempts, and exhaustion returns a
structured error carrying the last error's description; a non-JSON
body (except under 429) returns an error immediately. -/
theorem claim_C5_retry_policy_amended :
    -- 401/403: no retry, no sleep, immediate structured auth error
    (∀ (script : Nat → Attempt) (s : Nat) (ra : Option Nat) (bj : Json),
        script 0 = .hr s ra (some bj) → s = 401 ∨ s = 403 →
        make_request script 3
          = ⟨mkErr ("Authentication error (Status: " ++ toString s ++ ")"),
              [], 1⟩)
    -- 429 then clean 200: exactly one sleep, of the Retry-After
    -- duration (default 5), then success
    ∧ (∀ (script : Nat → Attempt) (ra : Option Nat) (body : Option Json)
        (kvs : List (String × Json)),
        script 0 = .hr 429 ra body → script 1 = .hr 200 none (some (.obj kvs)) →
        make_request script 3 = ⟨.obj kvs, [ra.getD 5], 2⟩)
    -- a 429 iteration: Retry-After sleep, retry, one attempt consumed
    ∧ (∀ (script : Nat → Attempt) (rc fuel att : Nat) (le : Option String)
        (sl : List Nat) (ra : Option Nat) (body : Option Json),
        att < rc → script att = .hr 429 ra body →
        makeRequestLoop script rc (fuel + 1) att le sl
          = makeRequestLoop script rc fuel (att + 1) le (sl ++ [ra.getD 5]))
    -- three 429s exhaust the attempt budget
    ∧ make_request (fun _ => .hr 429 none (some (.obj []))) 3
        = ⟨errorJson none, [5, 5, 5], 3⟩
    -- another 4xx/5xx with a JSON body: 2^attempt backoff, attempt
    -- consumed (while attempts remain)
    ∧ (∀ (script : Nat → Attempt) (rc fuel att : Nat) (le : Option String)
        (sl : List Nat) (s : Nat) (ra : Option Nat) (bj : Json),
        att < rc → att + 1 < rc → script att = .hr s ra (some bj) →
        400 ≤ s → s ≠ 429 → s ≠ 401 → s ≠ 403 →
        makeRequestLoop script rc (fuel + 1) att le sl
          = makeRequestLoop script rc fuel (att + 1) le
              (sl ++ [2 ^ (att + 1)]))
    -- a timeout: 2^attempt backoff, attempt consumed, error recorded
    ∧ (∀ (script : Nat → Attempt) (rc fuel att : Nat) (le : Option String)
        (sl : List Nat),
        att < rc → script att = .timeout →
        makeRequestLoop script rc (fuel + 1) att le sl
          = makeRequestLoop script rc fuel (att + 1)
              (some "Request timeout") (sl ++ [2 ^ (att + 1)]))
    -- timeout exhaustion carries the last error's description
    ∧ make_request (fun _ => .timeout) 3
        = ⟨errorJson (some "Request timeout"), [2, 4, 8], 3⟩
    -- 5xx exhaustion returns a structured error naming the status
    ∧ make_request (fun _ => .hr 500 none (some (.obj []))) 3
        = ⟨mkErr "API error after 3 retries (Status: 500)", [2, 4], 3⟩
    -- non-JSON body (on a non-429 status) fails that call immediately
    ∧ (∀ (script : Nat → Attempt) (s : Nat) (ra : Option Nat),
        s ≠ 429 → script 0 = .hr s ra none →
        make_request script 3
          = ⟨mkErr ("Invalid JSON response (Status: " ++ toString s ++ ")"),
              [], 1⟩) := by
  refine ⟨?_, ?_, ?_, rfl, ?_, ?_, rfl, rfl, ?_⟩
  · intro script s ra bj h0 hs
    rcases hs with rfl | rfl <;> simp [make_request, makeRequestLoop, h0]
  · intro script ra body kvs h0 h1
    simp [make_request, makeRequestLoop, h0, h1]
  · intro script rc fuel att le sl ra body hlt h
    simp [makeRequestLoop, hlt, h]
  · intro script rc fuel att le sl s ra bj hlt hlt1 h hge h429 h401 h403
    have e429 : (s == 429) = false := by simp [h429]
    have e401 : (s == 401) = false := by simp [h401]
    have e403 : (s == 403) = false := by simp [h403]
    simp [makeRequestLoop, hlt, hlt1, h, hge, e429, e401, e403]
  · intro script rc fuel att le sl hlt h
    simp [makeRequestLoop, hlt, h]
  · intro script s ra h429 h0
    have e429 : (s == 429) = false := by simp [h429]
    simp [make_request, makeRequestLoop, h0, e429]

/-- Witness for the amended claim C5 at concrete transports: a 401 is
answered by an immediate auth error with no sleeps and one call, and a
429-then-200 transport sleeps once for the Retry-After duration and
succeeds. -/
theorem claim_C5_witness :
    make_request (fun _ => .hr 401 none (some (.obj []))) 3
        = ⟨mkErr "Authentication error (Status: 401)", [], 1⟩
      ∧ make_request (fun i => if i == 0 then .hr 429 (some 7) (some (.obj []))
          else .hr 200 none (some (.obj [("ok", .bool true)]))) 3
        = ⟨.obj [("ok", .bool true)], [7], 2⟩ := by
  constructor
  · exact claim_C5_retry_policy_amended.1 _ 401 none (.obj []) rfl (Or.inl rfl)
  · exact claim_C5_retry_policy_amended.2.1 _ (some 7) (some (.obj []))
      [("ok", .bool true)] rfl rfl

/-! ## Claim C6: helper lemmas -/

/-- A structured error dict with a message string has a truthy
`"error"` member. -/
theorem errTruthy_mkErr (s : String) : errTruthy (mkErr s) = true := rfl

/-- The exhaustion error dict has a truthy `"error"` member (also when
the recorded last error is `None`). -/
theorem errTruthy_errorJson (m : Option String) :
    errTruthy (errorJson m) = true := by
  cases m <;> rfl

/-! ## Claim C6 -/

/-- Claim C6: `send_reply` returns false with zero transport calls when
the feedback id or the reply text is empty; otherwise its result is
true exactly when the request primitive's result carries no truthy
`"error"` member (the 2xx-equivalent API success) — in particular a
clean 2xx JSON-dict response yields true and an auth failure yields
false.  Totality of the model function embodies "never raises". -/
theorem claim_C6_send_reply :
    (∀ (script : Nat → Attempt) (t : String),
        send_reply script "" t = (false, 0))
    ∧ (∀ (script : Nat → Attempt) (f : String),
        send_reply script f "" = (false, 0))
    ∧ (∀ (script : Nat → Attempt) (f t : String), f ≠ "" → t ≠ "" →
        send_reply script f t
          = (!errTruthy (make_request script 3).result,
             (make_request script 3).calls))
    ∧ (∀ (script : Nat → Attempt) (f t : String)
        (kvs : List (String × Json)), f ≠ "" → t ≠ "" →
        script 0 = .hr 200 none (some (.obj kvs)) →
        List.lookup "error" kvs = none →
        send_reply script f t = (true, 1))
    ∧ (∀ (script : Nat → Attempt) (f t : String) (s : Nat)
        (ra : Option Nat) (bj : Json), f ≠ "" → t ≠ "" →
        script 0 = .hr s ra (some bj) → s = 401 ∨ s = 403 →
        send_reply script f t = (false, 1)) := by
  refine ⟨?_, ?_, ?_, ?_, ?_⟩
  · intro script t
    simp [send_reply]
  · intro script f
    simp [send_reply]
  · intro script f t hf ht
    unfold send_reply
    have hc : (f == "" || t == "") = false := by simp [hf, ht]
    rw [hc]
    rfl
  · intro script f t kvs hf ht h0 hl
    unfold send_reply
    have hc : (f == "" || t == "") = false := by simp [hf, ht]
    rw [hc]
    have hm : make_request script 3 = ⟨.obj kvs, [], 1⟩ := by
      simp [make_request, makeRequestLoop, h0]
    rw [hm]
    simp [errTruthy, hl]
  · intro script f t s ra bj hf ht h0 hs
    unfold send_reply
    have hc : (f == "" || t == "") = false := by simp [hf, ht]
    rw [hc]
    rcases hs with rfl | rfl
    · have hm : make_request script 3
          = ⟨mkErr "Authentication error (Status: 401)", [], 1⟩ := by
        simp [make_request, makeRequestLoop, h0]
        rfl
      rw [hm]
      rfl
    · have hm : make_request script 3
          = ⟨mkErr "Authentication error (Status: 403)", [], 1⟩ := by
        simp [make_request, makeRequestLoop, h0]
        rfl
      rw [hm]
      rfl

/-- Witness for claim C6 at concrete inputs: empty text means no call
and false; a clean 200 means true after one call; a 401 means false
after one call. -/
theorem claim_C6_witness :
    send_reply (fun _ => .hr 200 none (some (.obj []))) "f1" "" = (false, 0)
      ∧ send_reply (fun _ => .hr 200 none (some (.obj []))) "f1" "спасибо"
          = (true, 1)
      ∧ send_reply (fun _ => .hr 401 none (some (.obj []))) "f1" "спасибо"
          = (false, 1) := by
  refine ⟨?_, ?_, ?_⟩
  · exact claim_C6_send_reply.2.1 _ "f1"
  · exact claim_C6_send_reply.2.2.2.1 _ "f1" "спасибо" [] (by decide) (by decide)
      rfl rfl
  · exact claim_C6_send_reply.2.2.2.2 _ "f1" "спасибо" 401 none (.obj [])
      (by decide) (by decide) rfl (Or.inl rfl)

/-! ## Claim C7: helper lemmas -/

/-- A key is present exactly when lookup succeeds. -/
theorem dhas_true_iff (kvs : List (String × Json)) (k : String) :
    dhas kvs k = true ↔ ∃ v, List.lookup k kvs = some v := by
  unfold dhas
  cases hl : List.lookup k kvs <;> simp

/-- On a list of dict records, the photo loop picks each record's
`fullSize` value when present, else its `miniSize` value, else skips
it, and never raises. -/
theorem photoDictLoop_all_obj :
    ∀ (l : List Json), (∀ x ∈ l, isObjB x = true) →
      photoDictLoop l = some (l.filterMap photoRecordPick) := by
  intro l
  induction l with
  | nil => intro _; rfl
  | cons x xs ih =>
    intro h
    have hx := h x (List.mem_cons_self x xs)
    cases x with
    | obj kvs =>
      have hrest := ih fun y hy => h y (List.mem_cons_of_mem _ hy)
      unfold photoDictLoop
      rw [hrest]
      by_cases hf : dhas kvs "fullSize"
      · obtain ⟨v, hv⟩ := (dhas_true_iff kvs "fullSize").mp hf
        simp [hf, dget_of_lookup _ _ _ _ hv, List.filterMap_cons,
          photoRecordPick, hv]
      · have hlf := lookup_none_of_not_dhas kvs "fullSize" (by simpa using hf)
        by_cases hm : dhas kvs "miniSize"
        · obtain ⟨v, hv⟩ := (dhas_true_iff kvs "miniSize").mp hm
          simp [hf, hm, dget_of_lookup _ _ _ _ hv, List.filterMap_cons,
            photoRecordPick, hlf, hv]
        · have hlm := lookup_none_of_not_dhas kvs "miniSize" (by simpa using hm)
          simp [hf, hm, List.filterMap_cons, photoRecordPick, hlf, hlm]
    | null => simp [isObjB] at hx
    | bool b => simp [isObjB] at hx
    | num n => simp [isObjB] at hx
    | str s => simp [isObjB] at hx
    | arr l' => simp [isObjB] at hx

/-! ## Claim C7 -/

/-- Claim C7: `_extract_photo_links` handles the three shapes of the
photo field — a list of records yields per record the `fullSize` URL if
present else the `miniSize` URL; a flat list whose elements are strings
is returned as-is; a JSON-encoded string is decoded and the decoded
list is processed by the same list handling (one recursion) — and an
absent, empty, undecodable or unrecognized shape yields `[]`, never an
error; including the spec's four concrete examples. -/
theorem claim_C7_photo_extraction :
    (∀ (lib : PyJsonLib) (kvs kv1 : List (String × Json)) (rest : List Json),
        List.lookup "photoLinks" kvs = some (.arr (.obj kv1 :: rest)) →
        (∀ x ∈ (Json.obj kv1 :: rest), isObjB x = true) →
        extract_photo_links lib (.obj kvs)
          = (Json.obj kv1 :: rest).filterMap photoRecordPick)
    ∧ (∀ (lib : PyJsonLib) (kvs : List (String × Json)) (s : String)
        (rest : List Json),
        List.lookup "photoLinks" kvs = some (.arr (.str s :: rest)) →
        extract_photo_links lib (.obj kvs) = .str s :: rest)
    ∧ (∀ (lib : PyJsonLib) (kvs : List (String × Json)) (s : String)
        (l : List Json),
        List.lookup "photoLinks" kvs = some (.str s) → s ≠ "" →
        lib.loads s = some (.arr l) →
        extract_photo_links lib (.obj kvs) = photoHandleList l)
    ∧ (∀ (lib : PyJsonLib) (kvs : List (String × Json)) (s : String),
        List.lookup "photoLinks" kvs = some (.str s) → s ≠ "" →
        lib.loads s = none →
        extract_photo_links lib (.obj kvs) = [])
    ∧ (∀ (lib : PyJsonLib) (kvs : List (String × Json)),
        dhas kvs "photoLinks" = false →
        extract_photo_links lib (.obj kvs) = [])
    ∧ (∀ (lib : PyJsonLib) (kvs : List (String × Json)) (n : Int),
        List.lookup "photoLinks" kvs = some (.num n) →
        extract_photo_links lib (.obj kvs) = [])
    ∧ (∀ (lib : PyJsonLib) (kvs okvs : List (String × Json)),
        List.lookup "photoLinks" kvs = some (.obj okvs) →
        extract_photo_links lib (.obj kvs) = [])
    ∧ (∀ lib : PyJsonLib,
        extract_photo_links lib (.obj [("photoLinks",
            .arr [.obj [("fullSize", .str "A")], .obj [("miniSize", .str "B")]])])
          = [.str "A", .str "B"])
    ∧ (∀ lib : PyJsonLib,
        extract_photo_links lib (.obj [("photoLinks", .arr [.str "X", .str "Y"])])
          = [.str "X", .str "Y"])
    ∧ (∀ lib : PyJsonLib, lib.loads "[]" = some (.arr []) →
        extract_photo_links lib (.obj [("photoLinks", .str "[]")]) = [])
    ∧ (∀ lib : PyJsonLib, extract_photo_links lib (.obj []) = []) := by
  refine ⟨?_, ?_, ?_, ?_, ?_, ?_, ?_, ?_, ?_, ?_, ?_⟩
  · intro lib kvs kv1 rest hl hobj
    have hloop := photoDictLoop_all_obj (Json.obj kv1 :: rest) hobj
    simp [extract_photo_links, dget_of_lookup _ _ _ _ hl, truthy,
      photoHandleList, hloop]
  · intro lib kvs s rest hl
    simp [extract_photo_links, dget_of_lookup _ _ _ _ hl, truthy,
      photoHandleList]
  · intro lib kvs s l hl hs hdec
    simp [extract_photo_links, dget_of_lookup _ _ _ _ hl, truthy, hs, hdec]
  · intro lib kvs s hl hs hdec
    simp [extract_photo_links, dget_of_lookup _ _ _ _ hl, truthy, hs, hdec]
  · intro lib kvs habs
    have hl := lookup_none_of_not_dhas _ _ habs
    simp [extract_photo_links, dget, hl, truthy]
  · intro lib kvs n hl
    by_cases hn : n = 0
    · subst hn
      simp [extract_photo_links, dget_of_lookup _ _ _ _ hl, truthy]
    · simp [extract_photo_links, dget_of_lookup _ _ _ _ hl, truthy, hn]
  · intro lib kvs okvs hl
    cases okvs with
    | nil => simp [extract_photo_links, dget_of_lookup _ _ _ _ hl, truthy]
    | cons kv rest =>
      simp [extract_photo_links, dget_of_lookup _ _ _ _ hl, truthy]
  · intro lib; rfl
  · intro lib; rfl
  · intro lib hdec
    simp [extract_photo_links, dget, truthy, hdec, photoHandleList]
  · intro lib; rfl

/-- Witness for claim C7: the spec's example shapes at a concrete
decoder. -/
theorem claim_C7_witness :
    extract_photo_links stubLib (.obj [("photoLinks",
        .arr [.obj [("fullSize", .str "A")], .obj [("miniSize", .str "B")]])])
      = [.str "A", .str "B"]
    ∧ extract_photo_links ⟨fun _ => some (.arr []), fun _ => ""⟩
        (.obj [("photoLinks", .str "[]")]) = []
    ∧ extract_photo_links stubLib (.obj []) = [] := by
  refine ⟨?_, ?_, ?_⟩
  · exact claim_C7_photo_extraction.2.2.2.2.2.2.2.1 stubLib
  · exact claim_C7_photo_extraction.2.2.2.2.2.2.2.2.2.1
      ⟨fun _ => some (.arr []), fun _ => ""⟩ rfl
  · exact claim_C7_photo_extraction.2.2.2.2.2.2.2.2.2.2 stubLib

/-! ## Claim C8 -/

/-- Claim C8: `get_unanswered_reviews` encodes the tri-state answered
filter as the lowercase wire tokens `"true"`/`"false"`, omitting the
parameter entirely when the filter is `None`; its default sort order is
`dateDesc`; and it degrades to the empty list on an error result from
the request primitive (whose error results always carry a truthy
`"error"` member), on a non-dict `data` member, and on a non-list
`feedbacks` member, returning the feedback list only on a well-shaped
success response.  Totality of the model embodies "never raises". -/
theorem claim_C8_fetch_wire_format_and_degrade :
    (∀ (take skip : Int) (nm : Option Int) (ord : String),
        List.lookup "isAnswered" (gur_params (some true) take skip nm ord)
          = some (ParamV.pstr "true"))
    ∧ (∀ (take skip : Int) (nm : Option Int) (ord : String),
        List.lookup "isAnswered" (gur_params (some false) take skip nm ord)
          = some (ParamV.pstr "false"))
    ∧ (∀ (take skip : Int) (nm : Option Int) (ord : String),
        List.lookup "isAnswered" (gur_params none take skip nm ord) = none)
    ∧ gurDefaultOrder = "dateDesc"
    ∧ (∀ (ia : Option Bool) (take skip : Int) (nm : Option Int),
        List.lookup "order" (gur_params ia take skip nm gurDefaultOrder)
          = some (ParamV.pstr "dateDesc"))
    ∧ (∀ resp : Json, errTruthy resp = true → extractFeedbacks resp = [])
    ∧ (∀ m : Option String, errTruthy (errorJson m) = true)
    ∧ (∀ s : String, errTruthy (mkErr s) = true)
    ∧ (∀ (kvs : List (String × Json)) (j : Json),
        List.lookup "data" kvs = some j → isObjB j = false →
        extractFeedbacks (.obj kvs) = [])
    ∧ (∀ (kvs dkvs : List (String × Json)) (j : Json),
        List.lookup "data" kvs = some (.obj dkvs) →
        List.lookup "feedbacks" dkvs = some j → isArrB j = false →
        extractFeedbacks (.obj kvs) = [])
    ∧ (∀ (kvs dkvs : List (String × Json)) (l : List Json),
        errTruthy (.obj kvs) = false →
        List.lookup "data" kvs = some (.obj dkvs) →
        List.lookup "feedbacks" dkvs = some (.arr l) →
        extractFeedbacks (.obj kvs) = l)
    ∧ (∀ script : Nat → Attempt,
        get_unanswered_reviews_run script
          = extractFeedbacks (make_request script 3).result) := by
  refine ⟨?_, ?_, ?_, rfl, ?_, ?_, errTruthy_errorJson, errTruthy_mkErr,
    ?_, ?_, ?_, fun _ => rfl⟩
  · intro take skip nm ord
    cases nm <;> rfl
  · intro take skip nm ord
    cases nm <;> rfl
  · intro take skip nm ord
    cases nm <;> rfl
  · intro ia take skip nm
    cases ia <;> cases nm <;> rfl
  · intro resp h
    unfold extractFeedbacks
    rw [h]
    rfl
  · intro kvs j hl hobj
    unfold extractFeedbacks
    by_cases he : errTruthy (.obj kvs)
    · rw [he]; rfl
    · have hne : errTruthy (.obj kvs) = false := by simpa using he
      rw [hne]
      cases j with
      | obj okvs => simp [isObjB] at hobj
      | null => simp [dget_of_lookup _ _ _ _ hl]
      | bool b => simp [dget_of_lookup _ _ _ _ hl]
      | num n => simp [dget_of_lookup _ _ _ _ hl]
      | str s => simp [dget_of_lookup _ _ _ _ hl]
      | arr l => simp [dget_of_lookup _ _ _ _ hl]
  · intro kvs dkvs j hld hlf harr
    unfold extractFeedbacks
    by_cases he : errTruthy (.obj kvs)
    · rw [he]; rfl
    · have hne : errTruthy (.obj kvs) = false := by simpa using he
      rw [hne]
      cases j with
      | arr l => simp [isArrB] at harr
      | null => simp [dget_of_lookup _ _ _ _ hld, dget_of_lookup _ _ _ _ hlf]
      | bool b => simp [dget_of_lookup _ _ _ _ hld, dget_of_lookup _ _ _ _ hlf]
      | num n => simp [dget_of_lookup _ _ _ _ hld, dget_of_lookup _ _ _ _ hlf]
      | str s => simp [dget_of_lookup _ _ _ _ hld, dget_of_lookup _ _ _ _ hlf]
      | obj okvs => simp [dget_of_lookup _ _ _ _ hld, dget_of_lookup _ _ _ _ hlf]
  · intro kvs dkvs l hne hld hlf
    unfold extractFeedbacks
    rw [hne]
    simp [dget_of_lookup _ _ _ _ hld, dget_of_lookup _ _ _ _ hlf]

/-- Witness for claim C8 at concrete inputs: the wire tokens for the
three filter states, and degrade-to-empty on a concrete auth-error
transport versus the list on a concrete success transport. -/
theorem claim_C8_witness :
    List.lookup "isAnswered" (gur_params (some false) 5000 0 none "dateDesc")
        = some (ParamV.pstr "false")
      ∧ List.lookup "isAnswered" (gur_params none 5000 0 none "dateDesc") = none
      ∧ extractFeedbacks (mkErr "Authentication error (Status: 401)") = []
      ∧ extractFeedbacks
          (.obj [("data", .obj [("feedbacks", .arr [.str "r"])])])
          = [.str "r"] := by
  refine ⟨?_, ?_, ?_, ?_⟩
  · exact claim_C8_fetch_wire_format_and_degrade.2.1 5000 0 none "dateDesc"
  · exact claim_C8_fetch_wire_format_and_degrade.2.2.1 5000 0 none "dateDesc"
  · exact claim_C8_fetch_wire_format_and_degrade.2.2.2.2.2.1
      (mkErr "Authentication error (Status: 401)")
      (claim_C8_fetch_wire_format_and_degrade.2.2.2.2.2.2.2.1
        "Authentication error (Status: 401)")
  · exact claim_C8_fetch_wire_format_and_degrade.2.2.2.2.2.2.2.2.2.2.1
      [("data", .obj [("feedbacks", .arr [.str "r"])])]
      [("feedbacks", .arr [.str "r"])] [.str "r"] rfl rfl rfl

end WildLab
